import Mathlib

/-!
Verification of the Dataset & Result Cache Manager of the DROMA MCP server
(src/droma_mcp) against its natural-language specification.

The Python code is shallowly embedded: the process-wide `DromaState` object
(server/__init__.py) becomes a Lean structure over insertion-ordered
association lists (the semantics of Python dicts), the MCP tool functions
(server/dataset_management.py, server/data_loading.py) become pure Lean
functions from state to (result, state), and the statistical helpers
(util.py) become functions over lists of rational numbers, with `Option`
encoding missing values (NaN) and `Except` encoding Python exceptions.
-/

namespace DromaMCP

/-! ### Python dictionaries as insertion-ordered association lists

Python dict semantics: assignment to an existing key replaces the value in
place (keeping its position), assignment to a fresh key appends; `del`
removes the single binding; `.get` returns the first (only) binding.
-/

/-- Lookup in a Python dict: `m.get(k)` / `m[k]`. -/
def dictGet {α : Type} (m : List (String × α)) (k : String) : Option α :=
  match m with
  | [] => none
  | (k', v) :: rest => if k' = k then some v else dictGet rest k

/-- Python dict assignment `m[k] = v`: replace in place if present, else append. -/
def dictInsert {α : Type} (k : String) (v : α) (m : List (String × α)) :
    List (String × α) :=
  match m with
  | [] => [(k, v)]
  | (k', v') :: rest =>
    if k' = k then (k, v) :: rest else (k', v') :: dictInsert k v rest

/-- Python dict deletion `del m[k]`: removes the binding for `k`. -/
def dictRemove {α : Type} (k : String) (m : List (String × α)) :
    List (String × α) :=
  match m with
  | [] => []
  | (k', v') :: rest => if k' = k then rest else (k', v') :: dictRemove k rest

/-- Python membership test `k in m`. -/
def dictContains {α : Type} (m : List (String × α)) (k : String) : Bool :=
  (dictGet m k).isSome

/-- Number of bindings of key `k` (1 for a well-formed dict containing `k`). -/
def countKey {α : Type} (m : List (String × α)) (k : String) : Nat :=
  (m.filter (fun p => p.1 = k)).length

theorem dictGet_dictInsert_self {α : Type} (m : List (String × α)) (k : String)
    (v : α) : dictGet (dictInsert k v m) k = some v := by
  induction m with
  | nil => simp [dictInsert, dictGet]
  | cons p rest ih =>
    by_cases h : p.1 = k
    · simp [dictInsert, dictGet, h]
    · simp [dictInsert, dictGet, h, ih]

theorem dictGet_dictInsert_ne {α : Type} (m : List (String × α)) (k k' : String)
    (v : α) (h : k' ≠ k) : dictGet (dictInsert k v m) k' = dictGet m k' := by
  induction m with
  | nil => simp [dictInsert, dictGet, Ne.symm h]
  | cons p rest ih =>
    by_cases hp : p.1 = k
    · subst hp
      simp [dictInsert, dictGet, Ne.symm h]
    · simp only [dictInsert, if_neg hp]
      by_cases hp' : p.1 = k'
      · simp [dictGet, hp']
      · simp [dictGet, hp', ih]

theorem dictGet_dictRemove_ne {α : Type} (m : List (String × α)) (k k' : String)
    (h : k' ≠ k) : dictGet (dictRemove k m) k' = dictGet m k' := by
  induction m with
  | nil => simp [dictRemove]
  | cons p rest ih =>
    by_cases hp : p.1 = k
    · subst hp
      simp [dictRemove, dictGet, Ne.symm h]
    · by_cases hp' : p.1 = k'
      · simp [dictRemove, dictGet, hp, hp', h]
      · simp [dictRemove, dictGet, hp, hp', ih]

theorem countKey_cons {α : Type} (p : String × α) (rest : List (String × α))
    (k : String) :
    countKey (p :: rest) k = (if p.1 = k then 1 else 0) + countKey rest k := by
  by_cases hp : p.1 = k
  · simp [countKey, List.filter_cons, hp]
    omega
  · simp [countKey, List.filter_cons, hp]

theorem countKey_dictInsert_of_le_one {α : Type} (m : List (String × α))
    (k : String) (v : α) (h : countKey m k ≤ 1) :
    countKey (dictInsert k v m) k = 1 := by
  induction m with
  | nil => simp [dictInsert, countKey]
  | cons p rest ih =>
    by_cases hp : p.1 = k
    · rw [countKey_cons, if_pos hp] at h
      have hrest : countKey rest k = 0 := by omega
      simp [dictInsert, if_pos hp, countKey_cons, hrest]
    · rw [countKey_cons, if_neg hp] at h
      simp only [dictInsert, if_neg hp, countKey_cons]
      have := ih (by omega)
      omega

/-! ### Artifacts, metadata and cache entries

`_convert_r_to_python` (server/data_loading.py:19) produces either a pandas
DataFrame (a rectangular numeric table) or a plain Python dict of strings
(the opaque fallback for unconvertible R objects, and the error fallback).
Numeric cells are rationals; a missing value (NaN) is `none`.
-/

/-- A cached artifact: a rectangular numeric table (pandas DataFrame, cell
`none` = NaN) or the opaque fallback dictionary of string fields. -/
inductive Artifact where
  | table (cells : List (List (Option ℚ)))
  | fallbackDict (fields : List (String × String))
deriving DecidableEq

/-- The non-error fallback of `_convert_r_to_python`: the dictionary
`\x7b"r_object": s, "type": t\x7d`. -/
def convertFallback (s t : String) : Artifact :=
  .fallbackDict [("r_object", s), ("type", t)]

/-- The error fallback of `_convert_r_to_python`: the dictionary
`\x7b"error": e, "r_result": r\x7d`. -/
def convertErrorFallback (e r : String) : Artifact :=
  .fallbackDict [("error", e), ("r_result", r)]

/-- A value stored in the metadata dictionary of a cache entry. -/
inductive MetaVal where
  | bool (b : Bool)
  | str (s : String)
  | strList (l : List String)
  | null
deriving DecidableEq

/-- One entry in `DromaState.data_cache` (server/__init__.py:94): the dict
`\x7b"data": ..., "metadata": ..., "timestamp": ...\x7d`. The timestamp is an
abstract instant of the process clock. -/
structure CacheEntry where
  data : Artifact
  metadata : List (String × MetaVal)
  timestamp : ℤ
deriving DecidableEq

/-- Kind discriminator used by the dataset-management tools
(`dataset_type` field of the request models): `"DromaSet"` is the
single-project kind, `"MultiDromaSet"` the multi-project kind. -/
inductive DatasetType where
  | DromaSet
  | MultiDromaSet
deriving DecidableEq

/-- The process-wide `DromaState` (server/__init__.py:11), restricted to the
fields the Dataset Registry and Result Cache use. Every dict becomes an
insertion-ordered association list. The values of `datasets` and
`multidatasets` are the stored R object names (the runtime references). -/
structure DromaState where
  datasets : List (String × String)
  multidatasets : List (String × String)
  active_dataset : Option String
  active_multidataset : Option String
  data_cache : List (String × CacheEntry)
deriving DecidableEq

/-- The empty state built by `DromaState.__init__`. -/
def initialState : DromaState :=
  { datasets := [], multidatasets := [], active_dataset := none,
    active_multidataset := none, data_cache := [] }

/-! ### Bridge calls issued against the external R runtime -/

/-- One call into the external runtime Bridge. `materialize` is the R
assignment `rName <- createDromaSetFromDatabase(...)` (or the Multi
variant); `release` is the R call `rm(rName)` issued by `unload_dataset`. -/
inductive BridgeEvent where
  | materialize (rName : String) (dataset_id : String) (db_path : String)
  | release (rName : String)
deriving DecidableEq

/-- Whether a Bridge event is a release (`rm`) call. -/
def BridgeEvent.isRelease : BridgeEvent → Bool
  | .release _ => true
  | _ => false

/-! ### Dataset Registry operations -/

/-- `DromaState.load_dataset` (server/__init__.py:48), success path: the R
environment is attached and the `createDromaSetFromDatabase` /
`createMultiDromaSetFromDatabase` call succeeds. Returns the list of Bridge
calls issued together with the updated state. For the single kind the R
object name is the dataset id itself; for the multi kind it is the id with
commas replaced by underscores. No Bridge `release` is ever issued here: a
pre-existing entry under the same id is simply overwritten. (On a Bridge
failure the except branch returns False and the registry is unchanged.) -/
def DromaState.load_dataset (st : DromaState) (dataset_id db_path : String)
    (dataset_type : DatasetType) : List BridgeEvent × DromaState :=
  match dataset_type with
  | .DromaSet =>
    ([.materialize dataset_id dataset_id db_path],
     { st with datasets := dictInsert dataset_id dataset_id st.datasets })
  | .MultiDromaSet =>
    let rName := dataset_id.replace "," "_"
    ([.materialize rName dataset_id db_path],
     { st with multidatasets := dictInsert dataset_id rName st.multidatasets })

/-- `DromaState.get_dataset` (server/__init__.py:80). -/
def DromaState.get_dataset (st : DromaState) (dataset_id : Option String) :
    Option String :=
  match dataset_id with
  | some i => dictGet st.datasets i
  | none =>
    match st.active_dataset with
    | some a => dictGet st.datasets a
    | none => none

/-- `DromaState.get_multidataset` (server/__init__.py:86). -/
def DromaState.get_multidataset (st : DromaState) (dataset_id : Option String) :
    Option String :=
  match dataset_id with
  | some i => dictGet st.multidatasets i
  | none =>
    match st.active_multidataset with
    | some a => dictGet st.multidatasets a
    | none => none

/-- The registry map for a kind. -/
def registryOf (st : DromaState) : DatasetType → List (String × String)
  | .DromaSet => st.datasets
  | .MultiDromaSet => st.multidatasets

/-- The active pointer for a kind. -/
def activeOf (st : DromaState) : DatasetType → Option String
  | .DromaSet => st.active_dataset
  | .MultiDromaSet => st.active_multidataset

/-- Outcome status of the `unload_dataset` tool: the `"status"` field of the
returned dictionary. -/
inductive UnloadStatus where
  | success
  | warning
deriving DecidableEq

/-- The `unload_dataset` tool (server/dataset_management.py:196). If the id
is not registered under the requested kind it returns the warning dict and
leaves the state untouched. Otherwise it issues the advisory R `rm` (whose
failures are swallowed; we do not track its trace since no claim needs it),
deletes the handle, and clears the matching active pointer exactly when it
pointed at the removed id. -/
def unload_dataset (st : DromaState) (dataset_id : String)
    (dataset_type : DatasetType) : UnloadStatus × DromaState :=
  match dataset_type with
  | .DromaSet =>
    if dictContains st.datasets dataset_id then
      (.success,
       { st with
         datasets := dictRemove dataset_id st.datasets
         active_dataset :=
           if st.active_dataset = some dataset_id then none
           else st.active_dataset })
    else (.warning, st)
  | .MultiDromaSet =>
    if dictContains st.multidatasets dataset_id then
      (.success,
       { st with
         multidatasets := dictRemove dataset_id st.multidatasets
         active_multidataset :=
           if st.active_multidataset = some dataset_id then none
           else st.active_multidataset })
    else (.warning, st)

/-- Spec invariant on the registry: each active pointer references a
registered handle of its kind or is unset. -/
def noDanglingActive (st : DromaState) : Prop :=
  (∀ a, st.active_dataset = some a → (dictGet st.datasets a).isSome) ∧
  (∀ a, st.active_multidataset = some a → (dictGet st.multidatasets a).isSome)

/-! ### Result Cache operations -/

/-- `DromaState.cache_data` (server/__init__.py:92): unconditional dict
assignment of the entry `\x7b"data": data, "metadata": metadata or \x7b\x7d,
"timestamp": pd.Timestamp.now()\x7d`; `now` is the clock reading taken by
`pd.Timestamp.now()` during the call. -/
def DromaState.cache_data (st : DromaState) (key : String) (data : Artifact)
    (metadata : Option (List (String × MetaVal))) (now : ℤ) : DromaState :=
  { st with
    data_cache :=
      dictInsert key
        { data := data, metadata := metadata.getD [], timestamp := now }
        st.data_cache }

/-- `DromaState.get_cached_data` (server/__init__.py:100). -/
def DromaState.get_cached_data (st : DromaState) (key : String) :
    Option Artifact :=
  (dictGet st.data_cache key).map (fun e => e.data)

/-! ### Cache keys -/

/-- The cache key built by `load_molecular_profiles_normalized`
(server/data_loading.py:92): the f-string
`f"mol_profiles_\x7brequest.dataset_name\x7d_\x7brequest.molecular_type.value\x7d"`. -/
def molProfilesCacheKey (dataset_name molecular_type : String) : String :=
  "mol_profiles_" ++ dataset_name ++ "_" ++ molecular_type

/-- The request model of `load_molecular_profiles_normalized`
(schema/data_loading.py): every field that determines the produced
artifact. Enum-valued fields are carried as their string values. -/
structure LoadMolecularProfilesModel where
  dataset_name : String
  molecular_type : String
  features : Option (List String)
  data_type : String
  tumor_type : String
  z_score : Bool
deriving DecidableEq

/-- The key under which `load_molecular_profiles_normalized` caches the
artifact it produced for a request. -/
def requestCacheKey (r : LoadMolecularProfilesModel) : String :=
  molProfilesCacheKey r.dataset_name r.molecular_type

/-- Python `str.isalnum() or c in ["_", "-"]` filtering used by
`generate_cache_key`; ASCII identifiers only, as in the dataset ids the
server handles. -/
def isCleanChar (c : Char) : Bool :=
  c.isAlphanum || c = '_' || c = '-'

/-- `generate_cache_key` (util.py:348): strips problematic characters from
both discriminators and joins with underscores. -/
def generate_cache_key (pre dataset_id data_type : String) : String :=
  let cleanDataset : String := ⟨dataset_id.data.filter isCleanChar⟩
  let cleanType : String := ⟨data_type.data.filter isCleanChar⟩
  pre ++ "_" ++ cleanDataset ++ "_" ++ cleanType

/-! ### Statistics over flattened tables

numpy semantics used by the auditor: `values.mean()` and `values.std()`
(population standard deviation, `ddof=0`) are taken over every cell, so any
NaN cell makes them NaN, and the mean of zero cells is NaN; `values.min()` /
`values.max()` raise on zero cells and are NaN when a NaN cell is present;
every comparison with NaN is False. A NaN result is modelled as `none`.

The standard deviation is the square root of the variance; to stay inside
ℚ the model carries the variance, and each comparison against the standard
deviation is expressed by squaring its (nonnegative) bounds:
`0.9 < std < 1.1 ↔ 81/100 < var < 121/100` and
`0.8 < std < 1.2 ↔ 16/25 < var < 36/25`, since `std = √var ≥ 0`.
-/

/-- Flattening of the rectangular table: `df.values.flatten()` in row-major
order. -/
def flattenCells (cells : List (List (Option ℚ))) : List (Option ℚ) :=
  cells.flatten

/-- Dropping missing values: `values[~pd.isna(values)]` (util.py:399). -/
def dropNa (xs : List (Option ℚ)) : List ℚ :=
  xs.filterMap id

/-- Mean of a nonempty list of rationals. -/
def qMean (l : List ℚ) : ℚ := l.sum / l.length

/-- Population variance (`ddof=0`, the numpy `.std()` default, squared) of a
nonempty list of rationals. -/
def qVar (l : List ℚ) : ℚ :=
  ((l.map (fun x => (x - qMean l) ^ 2)).sum) / l.length

/-- numpy `values.mean()`: NaN when empty or when any cell is NaN. -/
def npMean (xs : List (Option ℚ)) : Option ℚ :=
  if xs.length = 0 then none
  else if xs.any (fun x => x.isNone) then none
  else some (qMean (dropNa xs))

/-- The numpy variance, i.e. `values.std() ^ 2`: NaN when empty or when any
cell is NaN. -/
def npVar (xs : List (Option ℚ)) : Option ℚ :=
  if xs.length = 0 then none
  else if xs.any (fun x => x.isNone) then none
  else some (qVar (dropNa xs))

/-- numpy `values.min()` on a nonempty array: NaN when any cell is NaN. -/
def npMin (xs : List (Option ℚ)) : Option ℚ :=
  if xs.any (fun x => x.isNone) then none
  else
    match dropNa xs with
    | [] => none
    | y :: ys => some (ys.foldl min y)

/-- numpy `values.max()` on a nonempty array: NaN when any cell is NaN. -/
def npMax (xs : List (Option ℚ)) : Option ℚ :=
  if xs.any (fun x => x.isNone) then none
  else
    match dropNa xs with
    | [] => none
    | y :: ys => some (ys.foldl max y)

/-- `abs(values.mean()) < 0.1` (data_loading.py:437); a NaN mean compares
False. -/
def meanCloseToZero : Option ℚ → Bool
  | none => false
  | some m => decide (|m| < 1 / 10)

/-- `abs(values.std() - 1.0) < 0.1` (data_loading.py:438), stated on the
variance: for `std = √v ≥ 0` it is `0.9 < std < 1.1`, i.e.
`81/100 < v < 121/100`; a NaN standard deviation compares False. -/
def stdCloseToOne : Option ℚ → Bool
  | none => false
  | some v => decide (81 / 100 < v ∧ v < 121 / 100)

/-- `(values < 0).any()` (data_loading.py:439); NaN cells compare False. -/
def hasNegativeValues (xs : List (Option ℚ)) : Bool :=
  xs.any (fun x =>
    match x with
    | some q => decide (q < 0)
    | none => false)

/-- The `validation_info` dictionary built by the DataFrame branch of
`check_zscore_normalization` (data_loading.py:432-446). The reported
standard deviation is the square root of `varStat`. -/
structure ValidationInfo where
  mean_close_to_zero : Bool
  std_close_to_one : Bool
  has_negative_values : Bool
  meanStat : Option ℚ
  varStat : Option ℚ
  minStat : Option ℚ
  maxStat : Option ℚ
deriving DecidableEq

/-- The DataFrame branch of `check_zscore_normalization`
(data_loading.py:432-446) as a standalone computation on the cells of the table.
With zero cells, `data.values.min()` raises (numpy reduction of a zero-size
array), which the surrounding `except` turns into an error return; that is
the `.error` case. In the source this branch is unreachable for cached
DataFrames, because `if not cached_data:` at data_loading.py:415 raises
`ValueError` on any DataFrame first (pandas forbids truth-testing a
DataFrame); see `check_zscore_normalization` below. -/
def dataFrameValidationInfo (cells : List (List (Option ℚ))) :
    Except Unit ValidationInfo :=
  let xs := flattenCells cells
  if xs.length = 0 then .error ()
  else
    .ok
      { mean_close_to_zero := meanCloseToZero (npMean xs)
        std_close_to_one := stdCloseToOne (npVar xs)
        has_negative_values := hasNegativeValues xs
        meanStat := npMean xs
        varStat := npVar xs
        minStat := npMin xs
        maxStat := npMax xs }

/-- The quality dictionary of `DataValidator.check_normalization_quality`
(util.py:396-417). The reported standard deviation is the square root of
`varStat`; `unit_variance` is `0.8 < std < 1.2`, i.e.
`16/25 < varStat < 36/25`. -/
structure QualityCheck where
  meanStat : ℚ
  varStat : ℚ
  minStat : ℚ
  maxStat : ℚ
  is_well_normalized : Bool
  mean_centered : Bool
  unit_variance : Bool
deriving DecidableEq

/-- `DataValidator.check_normalization_quality` (util.py:396): flattens the
table, drops NaN values, and returns the failure dict
`\x7b"valid": False, "reason": "No valid values found"\x7d` when no values
remain; otherwise computes the statistics over the remaining values. -/
def check_normalization_quality (cells : List (List (Option ℚ))) :
    Except String QualityCheck :=
  match dropNa (flattenCells cells) with
  | [] => .error "No valid values found"
  | y :: ys =>
    let values := y :: ys
    let m := qMean values
    let v := qVar values
    .ok
      { meanStat := m
        varStat := v
        minStat := ys.foldl min y
        maxStat := ys.foldl max y
        is_well_normalized := decide (|m| < 1 / 10) &&
          decide (16 / 25 < v ∧ v < 36 / 25)
        mean_centered := decide (|m| < 1 / 10)
        unit_variance := decide (16 / 25 < v ∧ v < 36 / 25) }

/-- Python truthiness of `metadata.get("zscore_normalized", False)`
(data_loading.py:426); the stored value is the boolean `request.z_score`,
and a missing key defaults to False. -/
def metaGetBool (md : List (String × MetaVal)) (k : String) : Bool :=
  match dictGet md k with
  | some (.bool b) => b
  | some _ => false
  | none => false

/-- Outcome of the `check_zscore_normalization` tool. `raisedTruthiness` is
an uncaught `ValueError` escaping the tool body, distinct from the error
dictionaries the tool itself returns. -/
inductive CheckOutcome where
  | errorNoData
  | ok (is_normalized : Bool) (validation_info : Option ValidationInfo)
deriving DecidableEq

/-- Result of running the `check_zscore_normalization` tool body: either it
returns a dictionary (`.ok`) or it raises before returning. -/
inductive CheckRun where
  | returned (out : CheckOutcome)
  | raisedTruthiness
deriving DecidableEq

/-- The `check_zscore_normalization` tool (server/data_loading.py:401).
`get_cached_data` yields the stored artifact (or None); the guard
`if not cached_data:` then truth-tests it: None and the empty dict are
falsy and give the "No cached data found" error return, a non-empty dict is
truthy, and a pandas DataFrame raises `ValueError` (pandas
`NDFrame.__bool__` always raises), which nothing catches — so for every
table-valued entry the tool raises and the DataFrame statistics branch
(modelled separately as `dataFrameValidationInfo`) is never reached. On the
reachable path the artifact is not a DataFrame, `validation_info` stays the
empty dict (`none` here) and the tool returns success with
`is_normalized = metadata.get("zscore_normalized", False)`. -/
def check_zscore_normalization (st : DromaState) (cache_key : String) :
    CheckRun :=
  match dictGet st.data_cache cache_key with
  | none => .returned .errorNoData
  | some entry =>
    match entry.data with
    | .table _ => .raisedTruthiness
    | .fallbackDict fields =>
      if fields.isEmpty then .returned .errorNoData
      else
        .returned
          (.ok (metaGetBool entry.metadata "zscore_normalized") none)

/-! ### Age-based eviction of temporary files (util.py:271) -/

/-- A file referenced by the `EXPORTS` / `FIGURES` registries: its
modification time (the creation instant of the export) and whether it still
exists on disk. -/
structure TempFile where
  mtime : ℤ
  onDisk : Bool
deriving DecidableEq

/-- Whether `cleanup_temp_files` removes a registry entry: an existing file
is deleted exactly when `current_time - mtime > max_age_seconds` (strict);
an entry whose file is gone is always dropped from the registry. -/
def cleanupRemoves (now maxAgeSeconds : ℤ) (f : TempFile) : Bool :=
  if f.onDisk then decide (now - f.mtime > maxAgeSeconds) else true

/-- One registry sweep of `cleanup_temp_files` (the loop over
`list(EXPORTS.keys())`, util.py:291-302): returns the surviving registry
and the number of removed entries. -/
def cleanupRegistry (now maxAgeSeconds : ℤ)
    (reg : List (String × TempFile)) : List (String × TempFile) × ℕ :=
  (reg.filter (fun p => !cleanupRemoves now maxAgeSeconds p.2),
   (reg.filter (fun p => cleanupRemoves now maxAgeSeconds p.2)).length)

/-- The summary dictionary returned by `cleanup_temp_files`. -/
structure CleanupSummary where
  cleaned_exports : ℕ
  cleaned_figures : ℕ
  remaining_exports : ℕ
  remaining_figures : ℕ
deriving DecidableEq

/-- `cleanup_temp_files` (util.py:271): sweeps both registries with the
cutoff `max_age_hours * 3600` seconds against the current clock reading. -/
def cleanup_temp_files (now : ℤ) (max_age_hours : ℤ)
    (exports figures : List (String × TempFile)) :
    (List (String × TempFile)) × (List (String × TempFile)) × CleanupSummary :=
  let maxAgeSeconds := max_age_hours * 3600
  let e := cleanupRegistry now maxAgeSeconds exports
  let f := cleanupRegistry now maxAgeSeconds figures
  (e.1, f.1,
   { cleaned_exports := e.2, cleaned_figures := f.2,
     remaining_exports := e.1.length, remaining_figures := f.1.length })

/-! ### Further dictionary lemmas -/

theorem dictGet_eq_none_of_countKey_zero {α : Type} (m : List (String × α))
    (k : String) (h : countKey m k = 0) : dictGet m k = none := by
  induction m with
  | nil => rfl
  | cons p rest ih =>
    rw [countKey_cons] at h
    by_cases hp : p.1 = k
    · rw [if_pos hp] at h
      omega
    · rw [if_neg hp] at h
      simp [dictGet, hp, ih (by omega)]

theorem dictGet_dictRemove_self {α : Type} (m : List (String × α)) (k : String)
    (h : countKey m k ≤ 1) : dictGet (dictRemove k m) k = none := by
  induction m with
  | nil => rfl
  | cons p rest ih =>
    rw [countKey_cons] at h
    by_cases hp : p.1 = k
    · rw [if_pos hp] at h
      simp only [dictRemove, if_pos hp]
      exact dictGet_eq_none_of_countKey_zero rest k (by omega)
    · rw [if_neg hp] at h
      simp only [dictRemove, if_neg hp, dictGet, hp, if_false]
      simpa [hp] using ih (by omega)

/-! ### Claims about the Dataset Registry -/

/-- Claim C1: for every registered dataset id and kind, unloading that
dataset when it is the active one clears the corresponding active pointer
in the same operation as the removal, unloading a dataset that is not the
active one leaves the active pointer unchanged, and after every unload the
active pointer is never a dangling reference. The hypothesis `hwf` is the
Python-dict well-formedness of the registry map (at most one binding per
key). -/
theorem C1_unload_never_dangling (st : DromaState) (id : String)
    (dt : DatasetType) (hwf : countKey (registryOf st dt) id ≤ 1) :
    (activeOf st dt = some id → dictContains (registryOf st dt) id = true →
      activeOf (unload_dataset st id dt).2 dt = none ∧
      dictGet (registryOf (unload_dataset st id dt).2 dt) id = none) ∧
    (activeOf st dt ≠ some id →
      activeOf (unload_dataset st id dt).2 dt = activeOf st dt) ∧
    (noDanglingActive st → noDanglingActive (unload_dataset st id dt).2) := by
  cases dt with
  | DromaSet =>
    by_cases hc : dictContains st.datasets id = true
    · refine ⟨fun ha _ => ?_, fun hne => ?_, fun hnd => ?_⟩
      · simp only [unload_dataset, hc, if_true, activeOf, registryOf] at *
        exact ⟨by simp [ha], dictGet_dictRemove_self _ _ hwf⟩
      · simp only [unload_dataset, hc, if_true, activeOf] at *
        simp [hne]
      · simp only [unload_dataset, hc, if_true, noDanglingActive] at *
        constructor
        · intro a ha
          by_cases hact : st.active_dataset = some id
          · simp [hact] at ha
          · simp only [if_neg hact] at ha
            have hne : a ≠ id := by
              intro hh
              exact hact (hh ▸ ha)
            rw [dictGet_dictRemove_ne _ _ _ hne]
            exact hnd.1 a ha
        · exact hnd.2
    · have hstate : unload_dataset st id .DromaSet = (.warning, st) := by
        simp [unload_dataset, hc]
      refine ⟨fun ha hc' => absurd hc' hc, fun hne => ?_, fun hnd => ?_⟩
      · rw [hstate]
      · rw [hstate]
        exact hnd
  | MultiDromaSet =>
    by_cases hc : dictContains st.multidatasets id = true
    · refine ⟨fun ha _ => ?_, fun hne => ?_, fun hnd => ?_⟩
      · simp only [unload_dataset, hc, if_true, activeOf, registryOf] at *
        exact ⟨by simp [ha], dictGet_dictRemove_self _ _ hwf⟩
      · simp only [unload_dataset, hc, if_true, activeOf] at *
        simp [hne]
      · simp only [unload_dataset, hc, if_true, noDanglingActive] at *
        constructor
        · exact hnd.1
        · intro a ha
          by_cases hact : st.active_multidataset = some id
          · simp [hact] at ha
          · simp only [if_neg hact] at ha
            have hne : a ≠ id := by
              intro hh
              exact hact (hh ▸ ha)
            rw [dictGet_dictRemove_ne _ _ _ hne]
            exact hnd.2 a ha
    · have hstate : unload_dataset st id .MultiDromaSet = (.warning, st) := by
        simp [unload_dataset, hc]
      refine ⟨fun ha hc' => absurd hc' hc, fun hne => ?_, fun hnd => ?_⟩
      · rw [hstate]
      · rw [hstate]
        exact hnd

/-- Witness for C1: in the concrete state where "CCLE" is loaded and
active, unloading it clears the active pointer and removes the handle. -/
theorem C1_unload_never_dangling_witness :
    activeOf (unload_dataset
      { initialState with datasets := [("CCLE", "CCLE")],
                          active_dataset := some "CCLE" } "CCLE" .DromaSet).2
      .DromaSet = none :=
  ((C1_unload_never_dangling
      { initialState with datasets := [("CCLE", "CCLE")],
                          active_dataset := some "CCLE" } "CCLE" .DromaSet
      (by decide)).1 rfl (by decide)).1

/-- Claim C8: unloading an id that was never loaded under the requested
kind returns the warning outcome and leaves the whole state unchanged. -/
theorem C8_unload_missing_id_warns (st : DromaState) (id : String)
    (dt : DatasetType) (h : dictContains (registryOf st dt) id = false) :
    unload_dataset st id dt = (.warning, st) := by
  cases dt with
  | DromaSet => simp [unload_dataset, registryOf] at h ⊢; simp [h]
  | MultiDromaSet => simp [unload_dataset, registryOf] at h ⊢; simp [h]

/-- Witness for C8: unloading "gCSI" from the empty registry warns and
changes nothing. -/
theorem C8_unload_missing_id_warns_witness :
    unload_dataset initialState "gCSI" .DromaSet = (.warning, initialState) :=
  C8_unload_missing_id_warns initialState "gCSI" .DromaSet (by decide)

/-- The trace and final state of loading "CCLE" twice (with different
database paths) from the empty state, scenario B of the spec. -/
def loadTwice : List BridgeEvent × DromaState :=
  let r1 := initialState.load_dataset "CCLE" "db1.sqlite" .DromaSet
  let r2 := r1.2.load_dataset "CCLE" "db2.sqlite" .DromaSet
  (r1.1 ++ r2.1, r2.2)

/-- Counterexample to claim C2: loading "CCLE" twice leaves one handle, but
the Bridge trace contains no `release` call at all — in particular the
first runtime reference (the R object name "CCLE") is never released
before the second materialize; `DromaState.load_dataset` simply overwrites
the R binding and the registry entry. -/
theorem C2_counterexample :
    countKey loadTwice.2.datasets "CCLE" = 1 ∧
    BridgeEvent.release "CCLE" ∉ loadTwice.1 := by
  decide

/-- The R object name `DromaState.load_dataset` binds for an id of each
kind: the id itself for a single DromaSet, the id with commas replaced by
underscores for a MultiDromaSet. -/
def rObjectName (dataset_id : String) : DatasetType → String
  | .DromaSet => dataset_id
  | .MultiDromaSet => dataset_id.replace "," "_"

/-- Claim C2 as amended: for every id and kind, loading the same
(id, kind) a second time leaves exactly one handle registered under that
id in the registry of that kind (the prior entry is overwritten and the
stored runtime reference is the kind-specific R object name), but no
Bridge `release` is ever issued in the two-load trace — the old runtime
reference is rebound by the second materialize, not released. -/
theorem C2_amended_reload_overwrites (st : DromaState) (id db1 db2 : String)
    (dt : DatasetType) (hwf : countKey (registryOf st dt) id ≤ 1) :
    countKey (registryOf ((st.load_dataset id db1 dt).2.load_dataset id db2
      dt).2 dt) id = 1 ∧
    dictGet (registryOf ((st.load_dataset id db1 dt).2.load_dataset id db2
      dt).2 dt) id = some (rObjectName id dt) ∧
    (((st.load_dataset id db1 dt).1 ++
      ((st.load_dataset id db1 dt).2.load_dataset id db2
        dt).1).any BridgeEvent.isRelease) = false := by
  cases dt with
  | DromaSet =>
    simp only [registryOf] at hwf
    refine ⟨?_, ?_, ?_⟩
    · simp only [DromaState.load_dataset, registryOf]
      exact countKey_dictInsert_of_le_one _ _ _
        (le_of_eq (countKey_dictInsert_of_le_one _ _ _ hwf))
    · simp only [DromaState.load_dataset, registryOf, rObjectName]
      exact dictGet_dictInsert_self _ _ _
    · simp [DromaState.load_dataset, BridgeEvent.isRelease]
  | MultiDromaSet =>
    simp only [registryOf] at hwf
    refine ⟨?_, ?_, ?_⟩
    · simp only [DromaState.load_dataset, registryOf]
      exact countKey_dictInsert_of_le_one _ _ _
        (le_of_eq (countKey_dictInsert_of_le_one _ _ _ hwf))
    · simp only [DromaState.load_dataset, registryOf, rObjectName]
      exact dictGet_dictInsert_self _ _ _
    · simp [DromaState.load_dataset, BridgeEvent.isRelease]

/-- Witness for the amended claim C2: the scenario-B input for the single
kind, and a comma-joined id for the multi kind, whose stored runtime
reference is the underscored R name. -/
theorem C2_amended_reload_overwrites_witness :
    countKey (registryOf ((initialState.load_dataset "CCLE" "db1.sqlite"
      .DromaSet).2.load_dataset "CCLE" "db2.sqlite" .DromaSet).2 .DromaSet)
      "CCLE" = 1 ∧
    dictGet (registryOf ((initialState.load_dataset "CCLE,gCSI" "db1.sqlite"
      .MultiDromaSet).2.load_dataset "CCLE,gCSI" "db2.sqlite"
      .MultiDromaSet).2 .MultiDromaSet) "CCLE,gCSI" =
      some (rObjectName "CCLE,gCSI" .MultiDromaSet) :=
  ⟨(C2_amended_reload_overwrites initialState "CCLE" "db1.sqlite"
      "db2.sqlite" .DromaSet (by decide)).1,
   (C2_amended_reload_overwrites initialState "CCLE,gCSI" "db1.sqlite"
      "db2.sqlite" .MultiDromaSet (by decide)).2.1⟩

/-! ### Claims about the Result Cache -/

/-- Claim C6: `cache_data` unconditionally overwrites any existing entry
under the key (last-write-wins) and records the current clock reading as
the timestamp of the entry; a put followed by a get with the same key returns
the stored artifact; and across successive puts to different keys under a
monotone clock (`ht`), the recorded timestamps are non-decreasing. -/
theorem C6_cache_put_get (st : DromaState) (k1 k2 : String) (a1 a2 : Artifact)
    (md1 md2 : Option (List (String × MetaVal))) (t1 t2 : ℤ)
    (hk : k1 ≠ k2) (ht : t1 ≤ t2) :
    dictGet (st.cache_data k1 a1 md1 t1).data_cache k1 =
      some { data := a1, metadata := md1.getD [], timestamp := t1 } ∧
    (st.cache_data k1 a1 md1 t1).get_cached_data k1 = some a1 ∧
    ((st.cache_data k1 a1 md1 t1).cache_data k1 a2 md2 t2).get_cached_data k1 =
      some a2 ∧
    dictGet ((st.cache_data k1 a1 md1 t1).cache_data k2 a2 md2 t2).data_cache
      k1 = some { data := a1, metadata := md1.getD [], timestamp := t1 } ∧
    dictGet ((st.cache_data k1 a1 md1 t1).cache_data k2 a2 md2 t2).data_cache
      k2 = some { data := a2, metadata := md2.getD [], timestamp := t2 } ∧
    (∀ e1 e2 : CacheEntry,
      dictGet ((st.cache_data k1 a1 md1 t1).cache_data k2 a2 md2 t2).data_cache
        k1 = some e1 →
      dictGet ((st.cache_data k1 a1 md1 t1).cache_data k2 a2 md2 t2).data_cache
        k2 = some e2 →
      e1.timestamp ≤ e2.timestamp) := by
  have h1 : dictGet (st.cache_data k1 a1 md1 t1).data_cache k1 =
      some { data := a1, metadata := md1.getD [], timestamp := t1 } := by
    simp [DromaState.cache_data, dictGet_dictInsert_self]
  have h4 : dictGet ((st.cache_data k1 a1 md1 t1).cache_data k2 a2 md2
      t2).data_cache k1 =
      some { data := a1, metadata := md1.getD [], timestamp := t1 } := by
    simp only [DromaState.cache_data]
    rw [dictGet_dictInsert_ne _ _ _ _ hk]
    simpa [DromaState.cache_data] using h1
  have h5 : dictGet ((st.cache_data k1 a1 md1 t1).cache_data k2 a2 md2
      t2).data_cache k2 =
      some { data := a2, metadata := md2.getD [], timestamp := t2 } := by
    simp [DromaState.cache_data, dictGet_dictInsert_self]
  refine ⟨h1, ?_, ?_, h4, h5, ?_⟩
  · simp [DromaState.get_cached_data, h1]
  · simp [DromaState.get_cached_data, DromaState.cache_data,
      dictGet_dictInsert_self]
  · intro e1 e2 he1 he2
    rw [h4] at he1
    rw [h5] at he2
    cases he1
    cases he2
    exact ht

/-- Witness for C6 at concrete keys, artifacts and instants. -/
theorem C6_cache_put_get_witness :
    (initialState.cache_data "k1" (convertFallback "o" "t") none
      3).get_cached_data "k1" = some (convertFallback "o" "t") :=
  (C6_cache_put_get initialState "k1" "k2" (convertFallback "o" "t")
    (convertFallback "o2" "t2") none none 3 7 (by decide) (by decide)).2.1

/-! ### Claims about cache-key derivation -/

theorem string_append_left_cancel (s t u : String) (h : s ++ t = s ++ u) :
    t = u := by
  have hd : (s ++ t).data = (s ++ u).data := by rw [h]
  simp only [String.data_append] at hd
  cases t with
  | mk td =>
    cases u with
    | mk ud =>
      have : td = ud := List.append_cancel_left hd
      rw [this]

/-- The two requests of the C5 counterexample: identical except that the
first asks for z-score normalization and the second does not. -/
def c5reqA : LoadMolecularProfilesModel :=
  { dataset_name := "CCLE", molecular_type := "mRNA", features := none,
    data_type := "all", tumor_type := "all", z_score := true }

/-- Same request with `z_score := false`. -/
def c5reqB : LoadMolecularProfilesModel :=
  { c5reqA with z_score := false }

/-- Counterexample to claim C5: two distinct requests that differ in
`z_score` — a parameter that changes the produced artifact and is recorded
in the provenance metadata — map to the same cache key, because the key
contains only the dataset name and the molecular type. The cited
`generate_cache_key` helper also collides on distinct discriminators, since
the underscore separator can be absorbed by either side. -/
theorem C5_counterexample :
    (c5reqA ≠ c5reqB ∧ requestCacheKey c5reqA = requestCacheKey c5reqB) ∧
    generate_cache_key "mol_profiles" "A_b" "c" =
      generate_cache_key "mol_profiles" "A" "b_c" := by
  refine ⟨⟨by decide, rfl⟩, by decide⟩

/-- Claim C5 as amended: the key derivation is a pure deterministic
function of (dataset name, molecular type) — identical discriminators give
identical keys regardless of the rest of the request, and with the dataset
name fixed, varying the molecular-type discriminator always changes the
key; but requests differing only in other artifact-affecting parameters
(z_score, features, data_type, tumor_type) collide. -/
theorem C5_amended_key_determinism (r r' : LoadMolecularProfilesModel) :
    (r.dataset_name = r'.dataset_name → r.molecular_type = r'.molecular_type →
      requestCacheKey r = requestCacheKey r') ∧
    (r.dataset_name = r'.dataset_name → r.molecular_type ≠ r'.molecular_type →
      requestCacheKey r ≠ requestCacheKey r') := by
  constructor
  · intro hd hm
    simp [requestCacheKey, molProfilesCacheKey, hd, hm]
  · intro hd hm hkey
    apply hm
    simp only [requestCacheKey, molProfilesCacheKey, hd] at hkey
    have h1 : ("mol_profiles_" ++ r'.dataset_name ++ "_") ++ r.molecular_type =
        ("mol_profiles_" ++ r'.dataset_name ++ "_") ++ r'.molecular_type := by
      simpa [String.append_assoc] using hkey
    exact string_append_left_cancel _ _ _ h1

/-- Witness for the amended claim C5: same dataset, different molecular
types, different keys. -/
theorem C5_amended_key_determinism_witness :
    requestCacheKey c5reqA ≠
      requestCacheKey { c5reqA with molecular_type := "cnv" } :=
  (C5_amended_key_determinism c5reqA
    { c5reqA with molecular_type := "cnv" }).2 rfl (by decide)

/-! ### Claims about age-based eviction -/

theorem cleanupRemoves_eq_false_iff (now maxS : ℤ) (f : TempFile) :
    cleanupRemoves now maxS f = false ↔
      (f.onDisk = true ∧ now - f.mtime ≤ maxS) := by
  cases h : f.onDisk
  · simp [cleanupRemoves, h]
  · simp only [cleanupRemoves, h, if_true, decide_eq_false_iff_not, not_lt,
      true_and]

theorem length_filter_not_add_length_filter {α : Type} (l : List α)
    (p : α → Bool) :
    (l.filter (fun a => !p a)).length + (l.filter p).length = l.length := by
  induction l with
  | nil => rfl
  | cons a l ih =>
    by_cases h : p a = true
    · simp [List.filter_cons, h]
      omega
    · simp only [Bool.not_eq_true] at h
      simp [List.filter_cons, h]
      omega

/-- A one-entry export registry whose file was created at instant 100. -/
def c7exports : List (String × TempFile) :=
  [("e0", { mtime := 100, onDisk := true })]

/-- Counterexample to claim C7: sweeping with `max_age = 0` at the very
instant the file was created removes nothing — the sweep removes a file
only when `current_time - mtime > max_age_seconds` holds strictly, and the
age here is exactly 0 — so `evictOlderThan(0)` does not remove all
entries (it reports 0 removed and keeps the entry). -/
theorem C7_counterexample :
    (cleanup_temp_files 100 0 c7exports []).1 = c7exports ∧
    (cleanup_temp_files 100 0 c7exports []).2.2.cleaned_exports = 0 := by
  decide

/-- Claim C7 as amended: the sweep keeps exactly the registry entries whose
file still exists and whose age is at most `max_age_hours * 3600` seconds
(so it removes exactly the strictly-older on-disk entries together with
every entry whose file is gone); the removed and remaining counts add up to
the registry size; and when every entry is on disk with age at most the
cutoff — in particular for an unbounded cutoff — nothing is removed.
`evictOlderThan(0)` therefore removes all entries except those whose age is
exactly zero. -/
theorem C7_amended_eviction (now maxH : ℤ)
    (exports figures : List (String × TempFile)) (p : String × TempFile) :
    (p ∈ (cleanup_temp_files now maxH exports figures).1 ↔
      p ∈ exports ∧ p.2.onDisk = true ∧ now - p.2.mtime ≤ maxH * 3600) ∧
    ((cleanup_temp_files now maxH exports figures).2.2.cleaned_exports +
      (cleanup_temp_files now maxH exports figures).2.2.remaining_exports =
      exports.length) ∧
    ((∀ q ∈ exports, q.2.onDisk = true ∧ now - q.2.mtime ≤ maxH * 3600) →
      (cleanup_temp_files now maxH exports figures).1 = exports ∧
      (cleanup_temp_files now maxH exports figures).2.2.cleaned_exports = 0) := by
  have hmem : ∀ q : String × TempFile,
      q ∈ (cleanup_temp_files now maxH exports figures).1 ↔
      q ∈ exports ∧ q.2.onDisk = true ∧ now - q.2.mtime ≤ maxH * 3600 := by
    intro q
    simp only [cleanup_temp_files, cleanupRegistry, List.mem_filter,
      Bool.not_eq_true', cleanupRemoves_eq_false_iff]
  have hsum : (cleanup_temp_files now maxH exports figures).2.2.cleaned_exports +
      (cleanup_temp_files now maxH exports figures).2.2.remaining_exports =
      exports.length := by
    simp only [cleanup_temp_files, cleanupRegistry]
    rw [Nat.add_comm]
    exact length_filter_not_add_length_filter exports _
  refine ⟨hmem p, hsum, fun hall => ?_⟩
  have hkeep : (cleanup_temp_files now maxH exports figures).1 = exports := by
    simp only [cleanup_temp_files, cleanupRegistry]
    apply List.filter_eq_self.mpr
    intro q hq
    simp only [Bool.not_eq_true', cleanupRemoves_eq_false_iff]
    exact hall q hq
  refine ⟨hkeep, ?_⟩
  have hrem : (cleanup_temp_files now maxH exports figures).2.2.remaining_exports
      = exports.length := by
    simp only [cleanup_temp_files, cleanupRegistry] at hkeep ⊢
    rw [hkeep]
  omega

/-- Witness for the amended claim C7: with a one-hour cutoff an entry of age
zero is on disk and fresh, so the sweep keeps the registry intact. -/
theorem C7_amended_eviction_witness :
    (cleanup_temp_files 100 1 c7exports []).1 = c7exports :=
  ((C7_amended_eviction 100 1 c7exports []
    ("e0", { mtime := 100, onDisk := true })).2.2 (by decide)).1

/-! ### Claims about the Normalization Auditor -/

theorem dropNa_length_of_all_isSome (xs : List (Option ℚ))
    (h : xs.all (fun x => x.isSome) = true) : (dropNa xs).length = xs.length := by
  induction xs with
  | nil => rfl
  | cons x xs ih =>
    simp only [List.all_cons, Bool.and_eq_true] at h
    cases x with
    | none => simp at h
    | some q =>
      show (q :: dropNa xs).length = xs.length + 1
      simp [ih h.2]

theorem any_isNone_eq_false_of_all_isSome (xs : List (Option ℚ))
    (h : xs.all (fun x => x.isSome) = true) :
    xs.any (fun x => x.isNone) = false := by
  induction xs with
  | nil => rfl
  | cons x xs ih =>
    simp only [List.all_cons, Bool.and_eq_true] at h
    cases x with
    | none => simp at h
    | some q => simp [List.any_cons, ih h.2]

theorem npMean_of_all_isSome (xs : List (Option ℚ)) (hne : xs ≠ [])
    (h : xs.all (fun x => x.isSome) = true) :
    npMean xs = some (qMean (dropNa xs)) := by
  have hlen : xs.length ≠ 0 := by simpa [List.length_eq_zero] using hne
  simp [npMean, hlen, any_isNone_eq_false_of_all_isSome xs h]

theorem npVar_of_all_isSome (xs : List (Option ℚ)) (hne : xs ≠ [])
    (h : xs.all (fun x => x.isSome) = true) :
    npVar xs = some (qVar (dropNa xs)) := by
  have hlen : xs.length ≠ 0 := by simpa [List.length_eq_zero] using hne
  simp [npVar, hlen, any_isNone_eq_false_of_all_isSome xs h]

theorem npMean_eq_none_of_any_isNone (xs : List (Option ℚ))
    (h : xs.any (fun x => x.isNone) = true) : npMean xs = none := by
  simp [npMean, h]

theorem npVar_eq_none_of_any_isNone (xs : List (Option ℚ))
    (h : xs.any (fun x => x.isNone) = true) : npVar xs = none := by
  simp [npVar, h]

/-- The per-entry classification the words of the spec claim for the unit
variance check: `0.8 < std < 1.2`, stated on the variance as
`16/25 < v < 36/25` since `std = √v ≥ 0`; NaN classifies false. Written
only to compare the claim of the spec with the classification in the code. -/
def specUnitVariance : Option ℚ → Bool
  | none => false
  | some v => decide (16 / 25 < v ∧ v < 36 / 25)

/-- Counterexample to claim C3: the 1x2 table (-1.15, 1.15) has mean 0 and
standard deviation exactly 1.15, which lies strictly between 0.8 and 1.2,
so the claim says the auditor classifies it as unit variance; but the
DataFrame branch of the auditor computes `abs(std - 1.0) < 0.1` — that is
`0.9 < std < 1.1` — and classifies it false. (The 0.8/1.2 bounds appear
only in `DataValidator.check_normalization_quality`, which no caller
invokes on cache entries.) -/
theorem C3_counterexample :
    (dataFrameValidationInfo [[some (-23 / 20), some (23 / 20)]]).map
      (fun vi => vi.std_close_to_one) = .ok false ∧
    specUnitVariance
      (npVar (flattenCells [[some (-23 / 20), some (23 / 20)]])) = true := by
  constructor
  · simp [dataFrameValidationInfo, flattenCells, stdCloseToOne, npVar, npMean,
      qVar, qMean, dropNa, Except.map]
    norm_num
  · simp [specUnitVariance, flattenCells, npVar, qVar, qMean, dropNa]
    norm_num

/-- Claim C3 as amended: on a non-empty table with no missing cells, the
DataFrame branch of the cache-entry auditor classifies mean-near-zero as
`|mean| < 0.1` and unit variance as `|std - 1| < 0.1` (that is,
`0.9 < std < 1.1`, stated on the variance); the bounds `0.8 < std < 1.2`
of the claim are implemented only by the unused
`DataValidator.check_normalization_quality` helper, whose classification
of the same table is also characterized here. -/
theorem C3_amended_thresholds (cells : List (List (Option ℚ)))
    (hne : flattenCells cells ≠ [])
    (hna : (flattenCells cells).all (fun x => x.isSome) = true) :
    ∃ vi, dataFrameValidationInfo cells = .ok vi ∧
      (vi.mean_close_to_zero = true ↔
        |qMean (dropNa (flattenCells cells))| < 1 / 10) ∧
      (vi.std_close_to_one = true ↔
        (81 / 100 < qVar (dropNa (flattenCells cells)) ∧
         qVar (dropNa (flattenCells cells)) < 121 / 100)) ∧
      ∃ q, check_normalization_quality cells = .ok q ∧
        (q.mean_centered = true ↔
          |qMean (dropNa (flattenCells cells))| < 1 / 10) ∧
        (q.unit_variance = true ↔
          (16 / 25 < qVar (dropNa (flattenCells cells)) ∧
           qVar (dropNa (flattenCells cells)) < 36 / 25)) := by
  have hlen : (flattenCells cells).length ≠ 0 := by
    simpa [List.length_eq_zero] using hne
  have hdlen : (dropNa (flattenCells cells)).length ≠ 0 := by
    rw [dropNa_length_of_all_isSome _ hna]
    exact hlen
  have hok : dataFrameValidationInfo cells = .ok
      { mean_close_to_zero := meanCloseToZero (npMean (flattenCells cells)),
        std_close_to_one := stdCloseToOne (npVar (flattenCells cells)),
        has_negative_values := hasNegativeValues (flattenCells cells),
        meanStat := npMean (flattenCells cells),
        varStat := npVar (flattenCells cells),
        minStat := npMin (flattenCells cells),
        maxStat := npMax (flattenCells cells) } := by
    simp only [dataFrameValidationInfo, if_neg hlen]
  refine ⟨_, hok, ?_, ?_, ?_⟩
  · rw [npMean_of_all_isSome _ hne hna]
    simp [meanCloseToZero]
  · rw [npVar_of_all_isSome _ hne hna]
    simp [stdCloseToOne]
  · cases hd : dropNa (flattenCells cells) with
    | nil =>
      refine absurd ?_ hdlen
      rw [hd]
      rfl
    | cons y ys =>
      have hok2 : check_normalization_quality cells = .ok
          { meanStat := qMean (y :: ys), varStat := qVar (y :: ys),
            minStat := ys.foldl min y, maxStat := ys.foldl max y,
            is_well_normalized := decide (|qMean (y :: ys)| < 1 / 10) &&
              decide (16 / 25 < qVar (y :: ys) ∧ qVar (y :: ys) < 36 / 25),
            mean_centered := decide (|qMean (y :: ys)| < 1 / 10),
            unit_variance :=
              decide (16 / 25 < qVar (y :: ys) ∧
                qVar (y :: ys) < 36 / 25) } := by
        simp only [check_normalization_quality, hd]
      refine ⟨_, hok2, ?_, ?_⟩
      · simp
      · simp

/-- Counterexample to claim C4: on the table (1.0, NaN) the DataFrame
branch of the auditor reports `sample_statistics.mean` as NaN — it computes
`values.mean()` over all cells without dropping the missing one, whereas
dropping first would give mean 1.0; and on the all-missing table (NaN) it
still produces a statistics dictionary (with NaN entries) instead of any
empty-data failure. -/
theorem C4_counterexample :
    (dataFrameValidationInfo [[some 1, none]]).map (fun vi => vi.meanStat) ≠
      .ok (some (qMean (dropNa (flattenCells [[some 1, none]])))) ∧
    (dataFrameValidationInfo [[none]]).map (fun vi => vi.meanStat) =
      .ok none := by
  constructor
  · simp [dataFrameValidationInfo, flattenCells, npMean, dropNa, qMean,
      Except.map]
  · rfl

/-- Claim C4 as amended: the DataFrame branch of the cache-entry auditor
does not drop missing values — whenever any cell is missing, the reported
mean and variance are NaN — and it has no empty-data failure; dropping
missing values first, and failing with the "No valid values found" outcome
exactly when zero values remain, is implemented by
`DataValidator.check_normalization_quality` (which no caller invokes on
cache entries), whose statistics are computed on the values that survive
the dropping. -/
theorem C4_amended_missing_values (cells cells2 : List (List (Option ℚ)))
    (hna : (flattenCells cells).any (fun x => x.isNone) = true) :
    (∀ vi, dataFrameValidationInfo cells = .ok vi →
      vi.meanStat = none ∧ vi.varStat = none) ∧
    (check_normalization_quality cells2 = .error "No valid values found" ↔
      dropNa (flattenCells cells2) = []) ∧
    (∀ q, check_normalization_quality cells2 = .ok q →
      q.meanStat = qMean (dropNa (flattenCells cells2)) ∧
      q.varStat = qVar (dropNa (flattenCells cells2))) := by
  refine ⟨?_, ?_, ?_⟩
  · intro vi hvi
    by_cases hlen : (flattenCells cells).length = 0
    · simp only [dataFrameValidationInfo, if_pos hlen] at hvi
      cases hvi
    · simp only [dataFrameValidationInfo, if_neg hlen] at hvi
      cases hvi
      exact ⟨npMean_eq_none_of_any_isNone _ hna,
        npVar_eq_none_of_any_isNone _ hna⟩
  · cases hd : dropNa (flattenCells cells2) with
    | nil => simp [check_normalization_quality, hd]
    | cons y ys => simp [check_normalization_quality, hd]
  · intro q hq
    cases hd : dropNa (flattenCells cells2) with
    | nil =>
      simp only [check_normalization_quality, hd] at hq
      cases hq
    | cons y ys =>
      simp only [check_normalization_quality, hd] at hq
      cases hq
      exact ⟨rfl, rfl⟩

/-- A state holding a table-valued cache entry under "k1" (no metadata)
and a fallback-dictionary entry under "k2" (no metadata). -/
def c9State : DromaState :=
  { initialState with
    data_cache :=
      [("k1", { data := .table [[some 1]], metadata := [], timestamp := 0 }),
       ("k2", { data := convertFallback "obj" "numeric_vector",
                metadata := [], timestamp := 0 })] }

/-- Claim C9 is the intended behaviour, but the code has a slip: for the
table-valued entry "k1" with no metadata, `check_zscore_normalization`
raises an uncaught `ValueError` at `if not cached_data:` (pandas refuses
to truth-test a DataFrame) before it can reach
`metadata.get("zscore_normalized", False)`, instead of reporting
`is_normalized = False`; the default-to-False behaviour is reached only on
non-DataFrame entries such as "k2". -/
theorem C9_truthiness_code_bug :
    check_zscore_normalization c9State "k1" = .raisedTruthiness ∧
    check_zscore_normalization c9State "k2" = .returned (.ok false none) := by
  constructor
  · rfl
  · rfl

/-- Claim C10: a cache entry whose stored artifact is the (never-empty)
opaque-fallback dictionary makes the normalization check return the
success dictionary with an empty `validation_info` and no statistical
classification, rather than an error. -/
theorem C10_fallback_entries_succeed (st : DromaState) (key : String)
    (entry : CacheEntry) (fields : List (String × String))
    (hlook : dictGet st.data_cache key = some entry)
    (hdata : entry.data = .fallbackDict fields) (hne : fields ≠ []) :
    check_zscore_normalization st key =
      .returned (.ok (metaGetBool entry.metadata "zscore_normalized") none) := by
  have hemp : fields.isEmpty = false := by
    cases fields with
    | nil => exact absurd rfl hne
    | cons f fs => rfl
  simp [check_zscore_normalization, hlook, hdata, hemp]

/-- A state holding one error-fallback entry whose provenance says
normalization was requested. -/
def c10State : DromaState :=
  { initialState with
    data_cache :=
      [("c10", { data := convertErrorFallback "conversion failed" "raw",
                 metadata := [("zscore_normalized", MetaVal.bool true)],
                 timestamp := 5 })] }

/-- Witness for C10 at a concrete error-fallback entry. -/
theorem C10_fallback_entries_succeed_witness :
    check_zscore_normalization c10State "c10" = .returned (.ok true none) :=
  C10_fallback_entries_succeed c10State "c10" _
    [("error", "conversion failed"), ("r_result", "raw")] rfl rfl (by decide)

/-- Witness for the amended claim C3 at the concrete table (-1.15, 1.15). -/
theorem C3_amended_thresholds_witness :
    ∃ vi, dataFrameValidationInfo [[some (-23 / 20), some (23 / 20)]] =
      .ok vi ∧ (vi.std_close_to_one = true ↔
        (81 / 100 < qVar (dropNa (flattenCells
          [[some (-23 / 20), some (23 / 20)]])) ∧
         qVar (dropNa (flattenCells [[some (-23 / 20), some (23 / 20)]])) <
           121 / 100)) := by
  obtain ⟨vi, h1, _, h3, _⟩ :=
    C3_amended_thresholds [[some (-23 / 20), some (23 / 20)]] (by decide)
      (by decide)
  exact ⟨vi, h1, h3⟩

/-- Witness for the amended claim C4 at the concrete tables (1.0, NaN) and
(NaN). -/
theorem C4_amended_missing_values_witness :
    check_normalization_quality [[none]] = .error "No valid values found" := by
  exact (C4_amended_missing_values [[some 1, none]] [[none]]
    (by decide)).2.1.mpr (by decide)

end DromaMCP
